import Mathlib

/-
Verification development for the samql query engine (SQL-like WHERE filters
over SAM alignment records).

Shallow embedding notes:
- Go machine integers (int, int64) are modelled as Int with explicit range
  checks where the source performs them (strconv.ParseInt / ParseUint);
  uint64 as Nat.  Go bitwise AND/OR on int are Int.land / Int.lor (two's
  complement semantics, matching Go).
- Go float64 / float32 values are modelled as exact rationals: every float
  literal appearing in this development is an exact decimal for which the
  modelled arithmetic and formatting agree with the IEEE-754 behaviour of
  the source.
- Go panics are modelled as Except.error; returned Go errors are modelled
  as explicit error values so that the panic/error distinction of the
  source is preserved.
- The record type exposes the field surface the evaluator reads (the
  record decoder is an external collaborator).
-/

namespace Samql

/-- Lexical tokens of the samql language, from the ql token list. -/
inductive Token where
  | ILLEGAL | EOF | WS | COMMENT
  | IDENT | BOUNDPARAM | NUMBER | INTEGER | STRING | BADSTRING | BADESCAPE
  | TRUE | FALSE | REGEX | BADREGEX
  | ADD | SUB | MUL | DIV | MOD | BITWISEAND | BITWISEOR | BITWISEXOR
  | AND | OR | EQ | NEQ | EQREGEX | NEQREGEX | LT | LTE | GT | GTE
  | LPAREN | RPAREN | COMMA | SEMICOLON | DOT
  | AS | FROM | SELECT | WHERE
  deriving DecidableEq, Repr

/-- Token.String: the display string of each token (the tokens array). -/
def Token.str : Token → String
  | .ILLEGAL => "ILLEGAL"
  | .EOF => "EOF"
  | .WS => "WS"
  | .COMMENT => ""
  | .IDENT => "IDENT"
  | .BOUNDPARAM => ""
  | .NUMBER => "NUMBER"
  | .INTEGER => ""
  | .STRING => "STRING"
  | .BADSTRING => "BADSTRING"
  | .BADESCAPE => "BADESCAPE"
  | .TRUE => "TRUE"
  | .FALSE => "FALSE"
  | .REGEX => "REGEX"
  | .BADREGEX => ""
  | .ADD => "+"
  | .SUB => "-"
  | .MUL => "*"
  | .DIV => "/"
  | .MOD => "%"
  | .BITWISEAND => "&"
  | .BITWISEOR => "|"
  | .BITWISEXOR => "^"
  | .AND => "AND"
  | .OR => "OR"
  | .EQ => "="
  | .NEQ => "!="
  | .EQREGEX => "=~"
  | .NEQREGEX => "!~"
  | .LT => "<"
  | .LTE => "<="
  | .GT => ">"
  | .GTE => ">="
  | .LPAREN => "("
  | .RPAREN => ")"
  | .COMMA => ","
  | .SEMICOLON => ";"
  | .DOT => "."
  | .AS => "AS"
  | .FROM => "FROM"
  | .SELECT => "SELECT"
  | .WHERE => "WHERE"

/-- Token.Precedence: numeric precedence of binary operators. -/
def Token.precedence : Token → Nat
  | .OR => 1
  | .AND => 2
  | .EQ | .NEQ | .EQREGEX | .NEQREGEX | .LT | .LTE | .GT | .GTE => 3
  | .ADD | .SUB | .BITWISEOR | .BITWISEXOR => 4
  | .MUL | .DIV | .MOD | .BITWISEAND => 5
  | _ => 0

/-- isOperator: true for tokens strictly between operatorBeg and operatorEnd. -/
def Token.isOperator : Token → Bool
  | .ADD | .SUB | .MUL | .DIV | .MOD | .BITWISEAND | .BITWISEOR | .BITWISEXOR
  | .AND | .OR | .EQ | .NEQ | .EQREGEX | .NEQREGEX | .LT | .LTE | .GT
  | .GTE => true
  | _ => false

/-- The dynamically typed value of an optional record tag (the value side of
a SAM auxiliary field).  The six Go integer widths are merged into one
integer constructor because the source converts each of them to int with a
value-preserving conversion. -/
inductive TagValue where
  | int (n : Int)
  | str (s : String)
  | char (c : Char)
  | float (q : ℚ)
  deriving DecidableEq, Repr

/-- One structured alignment record, exposing the fixed field surface that
the evaluator reads (the SAM/BAM decoding itself is an external
collaborator).  Computed Go fields (Cigar.String, Seq.Expand, Len, End) are
carried directly. -/
structure SamRecord where
  name : String := ""
  refName : String := ""
  cigar : String := ""
  mateRefName : String := ""
  seq : String := ""
  qual : String := ""
  flags : Nat := 0
  pos : Int := 0
  mapQ : Nat := 0
  matePos : Int := 0
  tempLen : Int := 0
  alnLen : Int := 0
  alnEnd : Int := 0
  tags : List (String × TagValue) := []

/-- rec.Tag(key): first tag with the given two-letter key, if any. -/
def SamRecord.tagLookup (rec : SamRecord) (key : String) : Option TagValue :=
  (rec.tags.find? (fun p => p.1 = key)).map (fun p => p.2)

/-- A partially resolved evaluation-stack value: a raw literal, a typed
per-record accessor, or a fully reduced predicate (FilterFunc). -/
inductive NodeVal where
  | filt (f : SamRecord → Bool)
  | phInt (f : SamRecord → Int)
  | phFloat (f : SamRecord → ℚ)
  | phStr (f : SamRecord → String)
  | phBool (f : SamRecord → Bool)
  | vStr (s : String)
  | vNum (q : ℚ)
  | vInt (n : Int)
  | vUint (n : Nat)
  | vRegex (pat : String)
  | vBool (b : Bool)

/- ---------------------------------------------------------------------
Minimal regular-expression engine.

The source delegates to Go regexp (RE2).  This models the fragment the
repository exercises: a leading ^ anchor, a trailing dollar anchor,
literal characters, backslash-escaped literals, the dot, bracket classes
with ranges and negation, and the postfix quantifiers * + ?.  Alternation
and grouping compile to an error in this model; no pattern used in this
development needs them.
--------------------------------------------------------------------- -/

/-- One matchable regex element. -/
inductive RexPiece where
  | lit (c : Char)
  | dot
  | cls (neg : Bool) (ranges : List (Char × Char))
  deriving DecidableEq, Repr

/-- Postfix quantifier of a regex element. -/
inductive RexQuant where
  | one | star | plus | opt
  deriving DecidableEq, Repr

/-- A compiled pattern: optional anchors around a sequence of quantified
elements. -/
structure Rex where
  bol : Bool
  eol : Bool
  pieces : List (RexPiece × RexQuant)
  deriving DecidableEq, Repr

/-- Parse the body of a bracket class, up to the closing bracket. -/
def rexParseClass (fuel : Nat) (cs : List Char) (acc : List (Char × Char)) :
    Except String (List (Char × Char) × List Char) :=
  match fuel, cs with
  | 0, _ => .error "regex class fuel"
  | _, [] => .error "missing closing bracket"
  | fuel + 1, c :: rest =>
    if c = ']' then .ok (acc.reverse, rest)
    else
      match rest with
      | '-' :: hi :: rest2 =>
        if hi = ']' then rexParseClass fuel rest (acc ++ [(c, c)])
        else rexParseClass fuel rest2 ((c, hi) :: acc)
      | _ => rexParseClass fuel rest ((c, c) :: acc)

/-- Attach a quantifier if the next char is one. -/
def rexQuantOf (cs : List Char) : RexQuant × List Char :=
  match cs with
  | '*' :: rest => (.star, rest)
  | '+' :: rest => (.plus, rest)
  | '?' :: rest => (.opt, rest)
  | _ => (.one, cs)

/-- Parse the piece sequence of a pattern. -/
def rexParsePieces (fuel : Nat) (cs : List Char)
    (acc : List (RexPiece × RexQuant)) :
    Except String (List (RexPiece × RexQuant) × Bool) :=
  match fuel, cs with
  | 0, _ => .error "regex fuel"
  | _, [] => .ok (acc.reverse, false)
  | fuel + 1, c :: rest =>
    if c = '$' ∧ rest = [] then .ok (acc.reverse, true)
    else if c = '(' ∨ c = ')' ∨ c = '|' then
      .error "unsupported regex construct"
    else if c = '\\' then
      match rest with
      | [] => .error "trailing backslash"
      | e :: rest2 =>
        let (q, rest3) := rexQuantOf rest2
        rexParsePieces fuel rest3 ((.lit e, q) :: acc)
    else if c = '[' then
      match rest with
      | '^' :: rest2 => do
        let (ranges, rest3) ← rexParseClass rest2.length.succ rest2 []
        let (q, rest4) := rexQuantOf rest3
        rexParsePieces fuel rest4 ((.cls true ranges, q) :: acc)
      | _ => do
        let (ranges, rest3) ← rexParseClass rest.length.succ rest []
        let (q, rest4) := rexQuantOf rest3
        rexParsePieces fuel rest4 ((.cls false ranges, q) :: acc)
    else if c = '.' then
      let (q, rest2) := rexQuantOf rest
      rexParsePieces fuel rest2 ((.dot, q) :: acc)
    else
      let (q, rest2) := rexQuantOf rest
      rexParsePieces fuel rest2 ((.lit c, q) :: acc)

/-- regexp.Compile, for the modelled fragment. -/
def compileRegex (pat : String) : Except String Rex := do
  let cs := pat.toList
  match cs with
  | '^' :: rest => do
    let (ps, eol) ← rexParsePieces rest.length.succ rest []
    pure { bol := true, eol := eol, pieces := ps }
  | _ => do
    let (ps, eol) ← rexParsePieces cs.length.succ cs []
    pure { bol := false, eol := eol, pieces := ps }

/-- Does one piece match one character. -/
def rexPieceMatches (p : RexPiece) (c : Char) : Bool :=
  match p with
  | .lit l => c = l
  | .dot => c ≠ '\n'
  | .cls neg ranges =>
    let mem := ranges.any (fun r => r.1 ≤ c ∧ c ≤ r.2)
    if neg then !mem else mem

/-- Backtracking match of a piece sequence against a prefix of the input
(the whole input when the end anchor is set). -/
def rexMatchHere (fuel : Nat) (ps : List (RexPiece × RexQuant))
    (cs : List Char) (eol : Bool) : Bool :=
  match fuel with
  | 0 => false
  | fuel + 1 =>
    match ps with
    | [] => if eol then cs = [] else true
    | (p, .one) :: rest =>
      match cs with
      | [] => false
      | c :: cs2 => rexPieceMatches p c && rexMatchHere fuel rest cs2 eol
    | (p, .opt) :: rest =>
      rexMatchHere fuel rest cs eol ||
        (match cs with
         | c :: cs2 => rexPieceMatches p c && rexMatchHere fuel rest cs2 eol
         | [] => false)
    | (p, .plus) :: rest =>
      rexMatchHere fuel ((p, .one) :: (p, .star) :: rest) cs eol
    | (p, .star) :: rest =>
      (match cs with
       | c :: cs2 =>
         rexPieceMatches p c && rexMatchHere fuel ((p, .star) :: rest) cs2 eol
       | [] => false) ||
      rexMatchHere fuel rest cs eol

/-- re.MatchString: match-anywhere containment test. -/
def rexMatchString (re : Rex) (s : String) : Bool :=
  let cs := s.toList
  let fuel := cs.length * (re.pieces.length + 2) + 2
  if re.bol then rexMatchHere fuel re.pieces cs re.eol
  else (List.range (cs.length + 1)).any
    (fun i => rexMatchHere fuel re.pieces (cs.drop i) re.eol)

/-- CompInt: compare two integers with op; unsupported ops give false. -/
def CompInt (a b : Int) (op : Token) : Bool :=
  match op with
  | .EQ => a == b
  | .NEQ => a != b
  | .LT => a < b
  | .LTE => a ≤ b
  | .GT => a > b
  | .GTE => a ≥ b
  | _ => false

/-- CompFloat: compare two floats with op; unsupported ops give false. -/
def CompFloat (a b : ℚ) (op : Token) : Bool :=
  match op with
  | .EQ => a == b
  | .NEQ => a != b
  | .LT => a < b
  | .LTE => a ≤ b
  | .GT => a > b
  | .GTE => a ≥ b
  | _ => false

/-- CompStr: compare two strings with op; the regex ops compile b and test
containment in a.  The source panics on an invalid pattern; every pattern
reaching this point was already compiled successfully by the parser, so the
error branch is unreachable through Where and is given the value false. -/
def CompStr (a b : String) (op : Token) : Bool :=
  match op with
  | .EQ => a == b
  | .NEQ => a != b
  | .LT => decide (a < b)
  | .LTE => decide (a ≤ b)
  | .GT => decide (b < a)
  | .GTE => decide (b ≤ a)
  | .EQREGEX =>
    match compileRegex b with
    | .ok re => rexMatchString re a
    | .error _ => false
  | .NEQREGEX =>
    match compileRegex b with
    | .ok re => !rexMatchString re a
    | .error _ => false
  | _ => false

/-- CompBool: compare two booleans with op; unsupported ops give false. -/
def CompBool (a b : Bool) (op : Token) : Bool :=
  match op with
  | .EQ => a == b
  | .NEQ => a != b
  | .AND => a && b
  | .OR => a || b
  | _ => false

/- ---------------------------------------------------------------------
Field resolver: the fixed keyword table of typed accessors, and the
dynamic tag-address accessors.
--------------------------------------------------------------------- -/

/-- QNAME accessor. -/
def qnameAcc (r : SamRecord) : String := r.name

/-- RNAME accessor. -/
def rnameAcc (r : SamRecord) : String := r.refName

/-- CIGAR accessor. -/
def cigarAcc (r : SamRecord) : String := r.cigar

/-- RNEXT accessor. -/
def rnextAcc (r : SamRecord) : String := r.mateRefName

/-- SEQ accessor. -/
def seqAcc (r : SamRecord) : String := r.seq

/-- QUAL accessor. -/
def qualAcc (r : SamRecord) : String := r.qual

/-- FLAG accessor. -/
def flagAcc (r : SamRecord) : Int := (r.flags : Int)

/-- POS accessor. -/
def posAcc (r : SamRecord) : Int := r.pos

/-- MAPQ accessor. -/
def mapqAcc (r : SamRecord) : Int := (r.mapQ : Int)

/-- PNEXT accessor. -/
def pnextAcc (r : SamRecord) : Int := r.matePos

/-- TLEN accessor. -/
def tlenAcc (r : SamRecord) : Int := r.tempLen

/-- LENGTH accessor. -/
def lengthAcc (r : SamRecord) : Int := r.alnLen

/-- END accessor. -/
def endAcc (r : SamRecord) : Int := r.alnEnd

/-- Test one fixed bit mask of the flag word: flags AND mask equals mask. -/
def flagBit (mask : Nat) (r : SamRecord) : Bool :=
  r.flags.land mask == mask

/-- PAIRED accessor (flag 0x1). -/
def pairedAcc : SamRecord → Bool := flagBit 0x1

/-- PROPERPAIR accessor (flag 0x2). -/
def properPairAcc : SamRecord → Bool := flagBit 0x2

/-- UNMAPPED accessor (flag 0x4). -/
def unmappedAcc : SamRecord → Bool := flagBit 0x4

/-- MATEUNMAPPED accessor (flag 0x8). -/
def mateUnmappedAcc : SamRecord → Bool := flagBit 0x8

/-- REVERSE accessor (flag 0x10). -/
def reverseAcc : SamRecord → Bool := flagBit 0x10

/-- MATEREVERSE accessor (flag 0x20). -/
def mateReverseAcc : SamRecord → Bool := flagBit 0x20

/-- READ1 accessor (flag 0x40). -/
def read1Acc : SamRecord → Bool := flagBit 0x40

/-- READ2 accessor (flag 0x80). -/
def read2Acc : SamRecord → Bool := flagBit 0x80

/-- SECONDARY accessor (flag 0x100). -/
def secondaryAcc : SamRecord → Bool := flagBit 0x100

/-- QCFAIL accessor (flag 0x200). -/
def qcfailAcc : SamRecord → Bool := flagBit 0x200

/-- DUPLICATE accessor (flag 0x400). -/
def duplicateAcc : SamRecord → Bool := flagBit 0x400

/-- SUPPLEMENTARY accessor (flag 0x800). -/
def supplementaryAcc : SamRecord → Bool := flagBit 0x800

/-- getPlaceholder: the fixed keyword-to-accessor table. -/
def getPlaceholder (name : String) : Option NodeVal :=
  match name with
  | "QNAME" => some (.phStr qnameAcc)
  | "RNAME" => some (.phStr rnameAcc)
  | "CIGAR" => some (.phStr cigarAcc)
  | "RNEXT" => some (.phStr rnextAcc)
  | "SEQ" => some (.phStr seqAcc)
  | "QUAL" => some (.phStr qualAcc)
  | "FLAG" => some (.phInt flagAcc)
  | "POS" => some (.phInt posAcc)
  | "MAPQ" => some (.phInt mapqAcc)
  | "PNEXT" => some (.phInt pnextAcc)
  | "TLEN" => some (.phInt tlenAcc)
  | "LENGTH" => some (.phInt lengthAcc)
  | "END" => some (.phInt endAcc)
  | "PAIRED" => some (.phBool pairedAcc)
  | "PROPERPAIR" => some (.phBool properPairAcc)
  | "UNMAPPED" => some (.phBool unmappedAcc)
  | "MATEUNMAPPED" => some (.phBool mateUnmappedAcc)
  | "REVERSE" => some (.phBool reverseAcc)
  | "MATEREVERSE" => some (.phBool mateReverseAcc)
  | "READ1" => some (.phBool read1Acc)
  | "READ2" => some (.phBool read2Acc)
  | "SECONDARY" => some (.phBool secondaryAcc)
  | "QCFAIL" => some (.phBool qcfailAcc)
  | "DUPLICATE" => some (.phBool duplicateAcc)
  | "SUPPLEMENTARY" => some (.phBool supplementaryAcc)
  | _ => none

/-- The two-letter tag key aval[0:2]. -/
def tagKey (aval : String) : String :=
  String.mk (aval.toList.take 2)

/-- The integer tag accessor (type code i): the tag value when present and
integer-typed, otherwise 0. -/
def tagIntAcc (key : String) (rec : SamRecord) : Int :=
  match rec.tagLookup key with
  | some (.int n) => n
  | _ => 0

/-- The string tag accessor (type code Z): the tag value when present and
string-typed, otherwise the empty string. -/
def tagStrAcc (key : String) (rec : SamRecord) : String :=
  match rec.tagLookup key with
  | some (.str s) => s
  | some _ => ""
  | none => ""

/-- The single-character tag accessor (type code A): a one-character string
when present and byte-typed; the empty string when the tag is absent.  When
the tag is present with a non-byte value the source builds a string from
the zero byte. -/
def tagCharAcc (key : String) (rec : SamRecord) : String :=
  match rec.tagLookup key with
  | some (.char c) => String.mk [c]
  | some _ => String.mk [Char.ofNat 0]
  | none => ""

/-- The float tag accessor (type code f): the tag value when present and
float-typed, otherwise 0.0. -/
def tagFloatAcc (key : String) (rec : SamRecord) : ℚ :=
  match rec.tagLookup key with
  | some (.float q) => q
  | some _ => 0
  | none => 0

/-- getPlaceholderTag: dispatch on the type code aval[3].  Type codes other
than i, Z, A, f make the source panic (Except.error here); reading aval[3]
on a shorter string would be an index-out-of-range panic, which callers
exclude by matching the tag pattern first. -/
def getPlaceholderTag (aval : String) : Except String NodeVal :=
  match aval.toList.get? 3 with
  | some 'i' => .ok (.phInt (tagIntAcc (tagKey aval)))
  | some 'Z' => .ok (.phStr (tagStrAcc (tagKey aval)))
  | some 'A' => .ok (.phStr (tagCharAcc (tagKey aval)))
  | some 'f' => .ok (.phFloat (tagFloatAcc (tagKey aval)))
  | some c => .error ("type " ++ String.mk [c] ++ " in " ++ aval ++
      " is not supported")
  | none => .error "index out of range"

/-- validTag: the anchored-prefix regexp test for a tag address, two ASCII
letters, a colon and a type code letter; MatchString is a prefix match, so
trailing characters are ignored. -/
def validTag (s : String) : Bool :=
  match s.toList with
  | c0 :: c1 :: c2 :: c3 :: _ =>
    c0.isAlpha && c1.isAlpha && c2 == ':' &&
      (c3 == 'A' || c3 == 'i' || c3 == 'f' || c3 == 'Z' || c3 == 'H' ||
       c3 == 'B')
  | _ => false

/-- evalVarRef: resolve an identifier to a keyword accessor, a tag
accessor, or itself as opaque text. -/
def evalVarRef (varRefVal : String) : Except String NodeVal :=
  match getPlaceholder varRefVal with
  | some fn => .ok fn
  | none =>
    if validTag varRefVal then getPlaceholderTag varRefVal
    else .ok (.vStr varRefVal)

/-- Go float-to-int conversion: truncation toward zero. -/
def ratTruncToInt (q : ℚ) : Int :=
  q.num.tdiv (q.den : Int)

/-- eval: combine two inferred values with operator op into a concrete
value, a placeholder or a FilterFunc.  Source panics are Except.error with
the source panic message. -/
def evalComb (a b : NodeVal) (op : Token) : Except String NodeVal :=
  match a with
  | .filt fa =>
    match b with
    | .filt fb => .ok (.filt (fun rec => CompBool (fa rec) (fb rec) op))
    | .phBool fb => .ok (.filt (fun rec => CompBool (fa rec) (fb rec) op))
    | .vBool vb => .ok (.filt (fun rec => CompBool (fa rec) vb op))
    | _ => .error "boolean filter can only be compared to other booleans"
  | .phInt fa =>
    match b with
    | .vInt n =>
      match op with
      | .BITWISEAND => .ok (.phInt (fun rec => Int.land (fa rec) n))
      | .BITWISEOR => .ok (.phInt (fun rec => Int.lor (fa rec) n))
      | _ => .ok (.filt (fun rec => CompInt (fa rec) n op))
    | .phInt fb => .ok (.filt (fun rec => CompInt (fa rec) (fb rec) op))
    | .phFloat fb =>
      .ok (.filt (fun rec => CompInt (fa rec) (ratTruncToInt (fb rec)) op))
    | .vNum q => .ok (.filt (fun rec => CompInt (fa rec) (ratTruncToInt q) op))
    | _ =>
      .error "integer placeholder can only be compared to other integers or floats"
  | .phFloat fa =>
    match b with
    | .vNum q => .ok (.filt (fun rec => CompFloat (fa rec) q op))
    | .vInt n => .ok (.filt (fun rec => CompFloat (fa rec) (n : ℚ) op))
    | .phInt fb =>
      .ok (.filt (fun rec => CompFloat (fa rec) ((fb rec : Int) : ℚ) op))
    | .phFloat fb => .ok (.filt (fun rec => CompFloat (fa rec) (fb rec) op))
    | _ =>
      .error "float placeholder can only be compared to other floats or integers"
  | .phStr fa =>
    match b with
    | .vStr s => .ok (.filt (fun rec => CompStr (fa rec) s op))
    | .phStr fb => .ok (.filt (fun rec => CompStr (fa rec) (fb rec) op))
    | .vRegex pat => .ok (.filt (fun rec => CompStr (fa rec) pat op))
    | .vInt n => .ok (.filt (fun rec => CompStr (fa rec) (toString n) op))
    | _ => .error "string placeholder can only be compared to other strings"
  | .phBool fa =>
    match b with
    | .vBool vb => .ok (.filt (fun rec => CompBool (fa rec) vb op))
    | .phBool fb => .ok (.filt (fun rec => CompBool (fa rec) (fb rec) op))
    | .filt fb => .ok (.filt (fun rec => CompBool (fa rec) (fb rec) op))
    | _ => .error "boolean placeholder can only be compared to other booleans"
  | .vStr sa =>
    match b with
    | .vStr sb => .ok (.vBool (sa == sb))
    | _ => .error "string can only be compared to other strings"
  | .vBool va =>
    match b with
    | .vBool vb => .ok (.filt (fun _ => CompBool va vb op))
    | .phBool fb => .ok (.filt (fun rec => CompBool va (fb rec) op))
    | .filt fb => .ok (.filt (fun rec => CompBool va (fb rec) op))
    | _ => .error "boolean can only be compared to other booleans"
  | _ => .error "unknown value type"

/- ---------------------------------------------------------------------
AST and round-trip rendering.
--------------------------------------------------------------------- -/

/-- The expression nodes of the samql AST. -/
inductive Expr where
  | numberLit (val : ℚ)
  | integerLit (val : Int)
  | unsignedLit (val : Nat)
  | booleanLit (val : Bool)
  | stringLit (val : String)
  | regexLit (pat : String)
  | varRef (val : String)
  | call (cmd : String) (args : List Expr)
  | paren (e : Expr)
  | binary (op : Token) (lhs rhs : Expr)
  | wildcard
  | nilLit

/-- Round the nonnegative fraction a/b to the nearest integer, ties to
even (the rounding used by correctly rounded fixed-precision decimal
formatting). -/
def roundHalfEvenDiv (a b : Nat) : Nat :=
  let n0 := a / b
  let rem2 := 2 * (a % b)
  if rem2 > b then n0 + 1
  else if rem2 < b then n0
  else if n0 % 2 = 0 then n0 else n0 + 1

/-- strconv.FormatFloat(v, f, 3, 64): fixed three-decimal formatting of a
number literal (the value scaled by 1000, rounded to the nearest integer,
then split into whole and fractional digits). -/
def formatFloat3 (q : ℚ) : String :=
  let neg := q.num < 0
  let n := roundHalfEvenDiv (q.num.natAbs * 1000) q.den
  let fs := toString (n % 1000)
  let fpad := String.mk (List.replicate (3 - fs.length) '0') ++ fs
  (if neg then "-" else "") ++ toString (n / 1000) ++ "." ++ fpad

/-- First character of an identifier: a letter or underscore. -/
def isIdentFirstChar (c : Char) : Bool :=
  c.isAlpha || c = '_'

/-- Later character of an identifier: a letter, digit or underscore. -/
def isIdentChar (c : Char) : Bool :=
  c.isAlpha || c.isDigit || c = '_'

/-- ASCII lowercase of one character (strings.ToLower restricted to the
keyword alphabet, which is pure ASCII). -/
def lowerChar (c : Char) : Char :=
  if 'A' ≤ c ∧ c ≤ 'Z' then Char.ofNat (c.toNat + 32) else c

/-- ASCII lowercase of a string. -/
def lowerStr (s : String) : String :=
  String.mk (s.toList.map lowerChar)

/-- Lookup: keyword token of a reserved word (case-insensitive), IDENT
otherwise. -/
def lookupKw (s : String) : Token :=
  match lowerStr s with
  | "and" => .AND
  | "or" => .OR
  | "as" => .AS
  | "from" => .FROM
  | "select" => .SELECT
  | "where" => .WHERE
  | "true" => .TRUE
  | "false" => .FALSE
  | _ => .IDENT

/-- The quote-string replacer: newline, backslash and single quote get
escaped. -/
def qsReplace (s : String) : String :=
  String.mk (s.toList.foldr
    (fun c acc =>
      (match c with
       | '\n' => ['\\', 'n']
       | '\\' => ['\\', '\\']
       | '\'' => ['\\', '\'']
       | _ => [c]) ++ acc) [])

/-- The quote-ident replacer: newline, backslash and double quote get
escaped. -/
def qiReplace (s : String) : String :=
  String.mk (s.toList.foldr
    (fun c acc =>
      (match c with
       | '\n' => ['\\', 'n']
       | '\\' => ['\\', '\\']
       | '"' => ['\\', '"']
       | _ => [c]) ++ acc) [])

/-- quoteString: single-quoted string literal form. -/
def quoteString (s : String) : String :=
  "\'" ++ qsReplace s ++ "\'"

/-- identNeedsQuotes: a keyword, or any character outside the bare
identifier alphabet, forces double quotes. -/
def identNeedsQuotes (ident : String) : Bool :=
  lookupKw ident ≠ .IDENT ||
    (match ident.toList with
     | [] => false
     | c :: rest => !isIdentFirstChar c || rest.any (fun d => !isIdentChar d))

/-- quoteIdent for a single segment (the only arity the AST renderers
use): quote when required, else return the bare text. -/
def quoteIdent1 (seg : String) : String :=
  if identNeedsQuotes seg || seg == "" then "\"" ++ qiReplace seg ++ "\""
  else seg

mutual

/-- String(): render an expression back to query text. -/
def Expr.render : Expr → String
  | .numberLit v => formatFloat3 v
  | .integerLit v => toString v
  | .unsignedLit v => toString v
  | .booleanLit b => if b then "true" else "false"
  | .stringLit s => quoteString s
  | .regexLit pat => "/" ++ pat.replace "/" "\\/" ++ "/"
  | .varRef v => quoteIdent1 v
  | .call cmd args => cmd ++ "(" ++ String.intercalate ", " (renderArgs args) ++ ")"
  | .paren e => "(" ++ e.render ++ ")"
  | .binary op l r => l.render ++ " " ++ op.str ++ " " ++ r.render
  | .wildcard => "*"
  | .nilLit => "nil"

/-- Render a call argument list. -/
def renderArgs : List Expr → List String
  | [] => []
  | e :: es => e.render :: renderArgs es

end

mutual

/-- fieldValidator: first binary operator in the subtree (pre-order) that
returns a boolean and is therefore illegal in a SELECT field. -/
def findInvalidOp : Expr → Option Token
  | .binary op l r =>
    match op with
    | .EQ | .NEQ | .EQREGEX | .NEQREGEX | .LT | .LTE | .GT | .GTE
    | .AND | .OR => some op
    | _ =>
      match findInvalidOp l with
      | some t => some t
      | none => findInvalidOp r
  | .call _ args => findInvalidOpList args
  | .paren e => findInvalidOp e
  | _ => none

/-- fieldValidator over a list of subtrees. -/
def findInvalidOpList : List Expr → Option Token
  | [] => none
  | e :: es =>
    match findInvalidOp e with
    | some t => some t
    | none => findInvalidOpList es

end

/- ---------------------------------------------------------------------
Lexer.

Modelled from the spec: the scanner source file is not under src/ (only
its tests are).  The rules below follow the specification's lexer
section for the whitespace, number, identifier/keyword, operator and
structural token classes, which cover every query text used in this
development; string, regex, bound-parameter and comment scanning are not
needed by any claim and unhandled characters scan as ILLEGAL.  Keyword
and operator tokens carry an empty literal, IDENT/NUMBER/INTEGER carry
their text, as in the scanner tests.
--------------------------------------------------------------------- -/

/-- Whitespace characters. -/
def isWsChar (c : Char) : Bool :=
  c = ' ' || c = '\t' || c = '\n' || c = '\r'

/-- Scan one number token: digits, then an optional dot and fraction
digits; the literal stops at the first non-numeric, non-dot boundary. -/
def scanNumber (l : List Char) : (Token × String) × List Char :=
  let ip := l.takeWhile Char.isDigit
  let r1 := l.dropWhile Char.isDigit
  match r1 with
  | '.' :: r2 =>
    ((.NUMBER, String.mk (ip ++ '.' :: r2.takeWhile Char.isDigit)),
      r2.dropWhile Char.isDigit)
  | _ => ((.INTEGER, String.mk ip), r1)

/-- Scan one identifier-or-keyword token. -/
def scanIdentKw (l : List Char) : (Token × String) × List Char :=
  let run := l.takeWhile isIdentChar
  let rest := l.dropWhile isIdentChar
  let s := String.mk run
  match lookupKw s with
  | .IDENT => ((.IDENT, s), rest)
  | kw => ((kw, ""), rest)

/-- Tokenize query text.  The fuel is at least the character count plus
one; every step consumes at least one character. -/
def scanTokens : Nat → List Char → List (Token × String)
  | _, [] => []
  | 0, _ => []
  | fuel + 1, c :: cs =>
    if c.isDigit then
      let (t, rest) := scanNumber (c :: cs)
      t :: scanTokens fuel rest
    else if c = '.' ∧ (cs.head?.map Char.isDigit).getD false then
      let (t, rest) := scanNumber (c :: cs)
      t :: scanTokens fuel rest
    else if isWsChar c then
      (.WS, String.mk ((c :: cs).takeWhile isWsChar)) ::
        scanTokens fuel ((c :: cs).dropWhile isWsChar)
    else if isIdentFirstChar c then
      let (t, rest) := scanIdentKw (c :: cs)
      t :: scanTokens fuel rest
    else
      match c, cs with
      | '=', '~' :: rest => (.EQREGEX, "") :: scanTokens fuel rest
      | '=', _ => (.EQ, "") :: scanTokens fuel cs
      | '!', '=' :: rest => (.NEQ, "") :: scanTokens fuel rest
      | '!', '~' :: rest => (.NEQREGEX, "") :: scanTokens fuel rest
      | '!', _ => (.ILLEGAL, "!") :: scanTokens fuel cs
      | '<', '=' :: rest => (.LTE, "") :: scanTokens fuel rest
      | '<', _ => (.LT, "") :: scanTokens fuel cs
      | '>', '=' :: rest => (.GTE, "") :: scanTokens fuel rest
      | '>', _ => (.GT, "") :: scanTokens fuel cs
      | '+', _ => (.ADD, "") :: scanTokens fuel cs
      | '-', _ => (.SUB, "") :: scanTokens fuel cs
      | '*', _ => (.MUL, "") :: scanTokens fuel cs
      | '/', _ => (.DIV, "") :: scanTokens fuel cs
      | '%', _ => (.MOD, "") :: scanTokens fuel cs
      | '&', _ => (.BITWISEAND, "") :: scanTokens fuel cs
      | '|', _ => (.BITWISEOR, "") :: scanTokens fuel cs
      | '^', _ => (.BITWISEXOR, "") :: scanTokens fuel cs
      | '(', _ => (.LPAREN, "") :: scanTokens fuel cs
      | ')', _ => (.RPAREN, "") :: scanTokens fuel cs
      | ',', _ => (.COMMA, "") :: scanTokens fuel cs
      | ';', _ => (.SEMICOLON, "") :: scanTokens fuel cs
      | '.', _ => (.DOT, "") :: scanTokens fuel cs
      | _, _ => (.ILLEGAL, String.mk [c]) :: scanTokens fuel cs

/-- Tokenize a string with sufficient fuel. -/
def tokensOf (s : String) : List (Token × String) :=
  scanTokens (s.toList.length + 1) s.toList

/- ---------------------------------------------------------------------
Parser.

Translated from the ql parser.  The token-buffered scanner is modelled by
explicit token-list threading: scanning returns the remainder of the
list, and unscan is expressed by continuing from the pre-consumption
list.  Token positions are not carried, so structured parse errors hold
the found token and the expected set without line/char coordinates.
--------------------------------------------------------------------- -/

/-- A parse failure: either a plain message or a found/expected pair. -/
inductive ParseErr where
  | msg (m : String)
  | found (f : String) (expected : List String)
  deriving DecidableEq, Repr

/-- tokstr: the literal when present, else the token display string. -/
def tokstr (tok : Token) (lit : String) : String :=
  if lit ≠ "" then lit else tok.str

/-- The token stream remaining to be consumed. -/
abbrev TkStream := List (Token × String)

/-- Skip whitespace and comment tokens (scanIgnoreWhiteSpace). -/
def dropWS (ts : TkStream) : TkStream :=
  ts.dropWhile (fun t => t.1 == Token.WS || t.1 == Token.COMMENT)

/-- Numeric value of a digit run. -/
def digitsVal (l : List Char) : Nat :=
  l.foldl (fun a c => a * 10 + (c.toNat - 48)) 0

/-- The integer-lexeme reading behind strconv.ParseInt/ParseUint: the
numeric value of a nonempty all-digit lexeme. -/
def parseIntLit (lit : String) : Option Nat :=
  let l := lit.toList
  if l ≠ [] ∧ l.all Char.isDigit then some (digitsVal l) else none

/-- strconv.ParseFloat modelled as the exact decimal rational of the
lexeme (digits, optionally around one dot). -/
def ratOfNumberLit (lit : String) : Option ℚ :=
  let l := lit.toList
  let ip := l.takeWhile (fun c => c ≠ '.')
  if ip.all Char.isDigit then
    match l.dropWhile (fun c => c ≠ '.') with
    | [] => if ip ≠ [] then some (mkRat (digitsVal ip) 1) else none
    | _ :: fp =>
      if fp.all Char.isDigit ∧ (ip ≠ [] ∨ fp ≠ []) then
        some (mkRat (digitsVal ip * 10 ^ fp.length + digitsVal fp)
          (10 ^ fp.length))
      else none
  else none

/-- Largest int64 value. -/
def maxInt64 : Nat := 9223372036854775807

/-- Largest uint64 value. -/
def maxUint64 : Nat := 18446744073709551615

/-- Insert a new operator and right operand into the tree under
construction by descending the right spine until a node whose right child
is not a binary expression, or carries an operator of precedence at least
that of the incoming operator, is found. -/
def insertByPrec (op : Token) (rhs : Expr) : Expr → Expr
  | t@(.binary op0 l r0) =>
    if op0.precedence ≥ op.precedence then .binary op t rhs
    else .binary op0 l (insertByPrec op rhs r0)
  | t => .binary op t rhs

/-- parseRegex: after optional whitespace, a regex token compiles into a
regex literal; anything else yields no regex (the caller decides whether
that is an error). -/
def parseRegexT (ts : TkStream) : Except ParseErr (Option Expr × TkStream) :=
  let ts1 := dropWS ts
  match ts1 with
  | (.REGEX, lit) :: rest =>
    match compileRegex lit with
    | .ok _ => .ok (some (.regexLit lit), rest)
    | .error e => .error (.msg e)
  | _ => .ok (none, ts1)

mutual

/-- ParseExpr: parse one unary operand, then fold in operators by
precedence. -/
def parseExprT : Nat → TkStream → Except ParseErr (Expr × TkStream)
  | 0, _ => .error (.msg "parser fuel exhausted")
  | fuel + 1, ts => do
    let (e0, ts1) ← parseUnaryExprT fuel ts
    parseExprLoop fuel e0 ts1

/-- The operator loop of ParseExpr. -/
def parseExprLoop : Nat → Expr → TkStream → Except ParseErr (Expr × TkStream)
  | 0, _, _ => .error (.msg "parser fuel exhausted")
  | fuel + 1, root, ts =>
    let ts1 := dropWS ts
    match ts1 with
    | [] => .ok (root, ts1)
    | (op, _) :: rest =>
      if !op.isOperator then .ok (root, ts1)
      else if op = .EQREGEX ∨ op = .NEQREGEX then do
        let (re0, ts2) ← parseRegexT rest
        match re0 with
        | some rhs => parseExprLoop fuel (insertByPrec op rhs root) ts2
        | none =>
          match dropWS ts2 with
          | (tok, lit) :: _ => .error (.found (tokstr tok lit) ["regex"])
          | [] => .error (.found (tokstr .EOF "") ["regex"])
      else do
        let (rhs, ts2) ← parseUnaryExprT fuel rest
        parseExprLoop fuel (insertByPrec op rhs root) ts2

/-- parseUnaryExpr: a non-binary expression. -/
def parseUnaryExprT : Nat → TkStream → Except ParseErr (Expr × TkStream)
  | 0, _ => .error (.msg "parser fuel exhausted")
  | fuel + 1, ts =>
    match dropWS ts with
    | (.LPAREN, _) :: rest => do
      let (e, ts2) ← parseExprT fuel rest
      match dropWS ts2 with
      | (.RPAREN, _) :: rest2 => .ok (.paren e, rest2)
      | (tok, lit) :: _ => .error (.found (tokstr tok lit) [")"])
      | [] => .error (.found (tokstr .EOF "") [")"])
    | (.IDENT, lit) :: rest =>
      -- a raw (whitespace-sensitive) scan for an immediate left paren
      -- decides between a call and a variable reference
      (match rest with
       | (.LPAREN, _) :: rest2 => parseCallT fuel lit rest2
       | _ => .ok (.varRef lit, rest))
    | (.STRING, lit) :: rest => .ok (.stringLit lit, rest)
    | (.NUMBER, lit) :: rest =>
      (match ratOfNumberLit lit with
       | some v => .ok (.numberLit v, rest)
       | none => .error (.msg "unable to parse number"))
    | (.INTEGER, lit) :: rest =>
      (match parseIntLit lit with
       | some v =>
         if v ≤ maxInt64 then .ok (.integerLit (v : Int), rest)
         else if v ≤ maxUint64 then .ok (.unsignedLit v, rest)
         else .error (.msg "unable to parse integer")
       | none => .error (.msg "unable to parse integer"))
    | (.TRUE, _) :: rest => .ok (.booleanLit true, rest)
    | (.FALSE, _) :: rest => .ok (.booleanLit false, rest)
    | (.MUL, _) :: rest => .ok (.wildcard, rest)
    | (.REGEX, lit) :: rest =>
      (match compileRegex lit with
       | .ok _ => .ok (.regexLit lit, rest)
       | .error e => .error (.msg e))
    | (.BOUNDPARAM, lit) :: _ =>
      -- the Where pipeline never supplies Params, so a bound parameter is
      -- always a missing-parameter error after the empty-name check
      let k := if lit.startsWith "$" then lit.drop 1 else lit
      if k = "" then .error (.msg "empty bound parameter")
      else .error (.msg ("missing parameter: " ++ k))
    | (.ADD, _) :: rest => parseSignedT fuel .ADD rest
    | (.SUB, _) :: rest => parseSignedT fuel .SUB rest
    | (tok, lit) :: _ =>
      .error (.found (tokstr tok lit) ["identifier", "string", "number", "bool"])
    | [] =>
      .error (.found (tokstr .EOF "") ["identifier", "string", "number", "bool"])

/-- The unary sign case: fold the sign into a numeric literal, turn an
unsigned literal of exactly 2^63 into the least int64 under negation,
fail with an underflow error on any other negated unsigned literal, and
multiply variables, calls and parenthesized expressions by the sign. -/
def parseSignedT : Nat → Token → TkStream → Except ParseErr (Expr × TkStream)
  | 0, _, _ => .error (.msg "parser fuel exhausted")
  | fuel + 1, sign, ts =>
    match dropWS ts with
    | (tok0, lit0) :: _ =>
      if tok0 = .NUMBER ∨ tok0 = .INTEGER ∨ tok0 = .LPAREN ∨ tok0 = .IDENT then do
        let (lit, ts2) ← parseUnaryExprT fuel (dropWS ts)
        match lit with
        | .numberLit v =>
          .ok (.numberLit (if sign = .SUB then -v else v), ts2)
        | .integerLit v =>
          .ok (.integerLit (if sign = .SUB then -v else v), ts2)
        | .unsignedLit v =>
          if sign = .SUB then
            if v = 9223372036854775808 then
              .ok (.integerLit (-9223372036854775808), ts2)
            else
              .error (.msg ("constant -" ++ toString v ++ " underflows int64"))
          else .ok (.unsignedLit v, ts2)
        | .varRef v =>
          .ok (.binary .MUL (.integerLit (if sign = .SUB then -1 else 1))
            (.varRef v), ts2)
        | .call cmd args =>
          .ok (.binary .MUL (.integerLit (if sign = .SUB then -1 else 1))
            (.call cmd args), ts2)
        | .paren e =>
          .ok (.binary .MUL (.integerLit (if sign = .SUB then -1 else 1))
            (.paren e), ts2)
        | _ => .error (.msg "unexpected literal")
      else
        .error (.found (tokstr tok0 lit0) ["identifier", "number", "duration", "("])
    | [] =>
      .error (.found (tokstr .EOF "") ["identifier", "number", "duration", "("])

/-- parseCall: the argument list of a function call, the name and left
paren having been consumed; the name is lowercased. -/
def parseCallT : Nat → String → TkStream → Except ParseErr (Expr × TkStream)
  | 0, _, _ => .error (.msg "parser fuel exhausted")
  | fuel + 1, name, ts => do
    let (re0, ts1) ← parseRegexT ts
    match re0 with
    | some r => parseCallArgsT fuel (lowerStr name) [r] ts1
    | none =>
      match ts1 with
      | (.RPAREN, _) :: rest => .ok (.call (lowerStr name) [], rest)
      | _ => do
        let (arg, ts2) ← parseExprT fuel ts1
        parseCallArgsT fuel (lowerStr name) [arg] ts2

/-- The comma-separated tail of a call argument list, then the closing
paren. -/
def parseCallArgsT : Nat → String → List Expr → TkStream →
    Except ParseErr (Expr × TkStream)
  | 0, _, _, _ => .error (.msg "parser fuel exhausted")
  | fuel + 1, name, args, ts =>
    match dropWS ts with
    | (.COMMA, _) :: rest => do
      let (re0, ts2) ← parseRegexT rest
      match re0 with
      | some r => parseCallArgsT fuel name (args ++ [r]) ts2
      | none => do
        let (arg, ts3) ← parseExprT fuel ts2
        parseCallArgsT fuel name (args ++ [arg]) ts3
    | (.RPAREN, _) :: rest => .ok (.call name args, rest)
    | (tok, lit) :: _ => .error (.found (tokstr tok lit) [")"])
    | [] => .error (.found (tokstr .EOF "") [")"])

end

/-- A parsed SELECT statement: projected fields with aliases, the source
table name, and the optional WHERE condition. -/
structure SelectStmt where
  fields : List (Expr × String)
  source : String
  condition : Option Expr

/-- parseIdent: expect an identifier after optional whitespace. -/
def parseIdentT (ts : TkStream) : Except ParseErr (String × TkStream) :=
  match dropWS ts with
  | (.IDENT, lit) :: rest => .ok (lit, rest)
  | (tok, lit) :: _ => .error (.found (tokstr tok lit) ["identifier"])
  | [] => .error (.found (tokstr .EOF "") ["identifier"])

/-- parseAlias: an optional AS-identifier suffix. -/
def parseAliasT (ts : TkStream) : Except ParseErr (String × TkStream) :=
  match dropWS ts with
  | (.AS, _) :: rest => do
    let (lit, ts2) ← parseIdentT rest
    .ok (lit, ts2)
  | _ => .ok ("", dropWS ts)

/-- parseField: a regex or an expression (validated to contain no
comparison or logical operator), an optional alias, then one trailing
whitespace token. -/
def parseFieldT (fuel : Nat) (ts : TkStream) :
    Except ParseErr ((Expr × String) × TkStream) := do
  let (re0, ts1) ← parseRegexT ts
  let (fexpr, ts2) ←
    match re0 with
    | some r => pure (r, ts1)
    | none => do
      let (e, ts2) ← parseExprT fuel ts1
      match findInvalidOp e with
      | some tok =>
        Except.error (.msg ("invalid operator " ++ tok.str ++
          " in SELECT clause; operator is intended for WHERE clause"))
      | none => pure (e, ts2)
  let (aliasName, ts3) ← parseAliasT ts2
  let ts4 := match ts3 with
    | (.WS, _) :: rest => rest
    | _ => ts3
  .ok ((fexpr, aliasName), ts4)

/-- parseFields: one or more comma-separated fields. -/
def parseFieldsT : Nat → List (Expr × String) → TkStream →
    Except ParseErr (List (Expr × String) × TkStream)
  | 0, _, _ => .error (.msg "parser fuel exhausted")
  | fuel + 1, acc, ts => do
    let (f, ts1) ← parseFieldT fuel ts
    match ts1 with
    | (.COMMA, _) :: rest => parseFieldsT fuel (acc ++ [f]) rest
    | _ => .ok (acc ++ [f], ts1)

/-- parseCondition: an optional WHERE clause. -/
def parseConditionT (fuel : Nat) (ts : TkStream) :
    Except ParseErr (Option Expr × TkStream) :=
  match dropWS ts with
  | (.WHERE, _) :: rest => do
    let (e, ts2) ← parseExprT fuel rest
    .ok (some e, ts2)
  | _ => .ok (none, dropWS ts)

/-- parseSelectStatement: fields, FROM, a source identifier, and an
optional condition (the SELECT token has been consumed). -/
def parseSelectStatementT (fuel : Nat) (ts : TkStream) :
    Except ParseErr (SelectStmt × TkStream) := do
  let (fs, ts1) ← parseFieldsT fuel [] ts
  match dropWS ts1 with
  | (.FROM, _) :: rest => do
    let (src, ts2) ← parseIdentT rest
    let (cond, ts3) ← parseConditionT fuel ts2
    .ok (⟨fs, src, cond⟩, ts3)
  | (tok, lit) :: _ => .error (.found (tokstr tok lit) ["FROM"])
  | [] => .error (.found (tokstr .EOF "") ["FROM"])

/-- ParseStatement: a SELECT statement. -/
def parseStatementT (fuel : Nat) (ts : TkStream) :
    Except ParseErr (SelectStmt × TkStream) :=
  match dropWS ts with
  | (.SELECT, _) :: rest => parseSelectStatementT fuel rest
  | (tok, lit) :: _ => .error (.found (tokstr tok lit) ["SELECT"])
  | [] => .error (.found (tokstr .EOF "") ["SELECT"])

/-- ParseExpr on query text (the package-level entry point used by the
tests): tokenize, then parse with sufficient fuel. -/
def parseExprText (s : String) : Except ParseErr Expr :=
  (parseExprT (s.toList.length + 2) (tokensOf s)).map (fun p => p.1)

/- ---------------------------------------------------------------------
Evaluator walk and the Where entry point.

The stack-based evaluation visitor is expressed as a recursive function
whose state is the visitor state (value stack plus recorded evaluation
error); a Go panic anywhere during the walk is an Except.error that
aborts it.  The stack head is the top (the last value pushed); the
visitor pops the right operand first, then the left.
--------------------------------------------------------------------- -/

/-- The evalVisitor state: the value stack and the recorded error. -/
structure EvalState where
  nodes : List NodeVal
  err : Option String

mutual

/-- One Walk of the evaluation visitor over an expression subtree. -/
def visitWalk : Expr → EvalState → Except String EvalState
  | .binary op l r, st => do
    let st1 ← visitWalk l st
    if st1.err.isSome then pure st1
    else do
      let st2 ← visitWalk r st1
      if st2.err.isSome then pure st2
      else
        match op with
        | .EQ | .NEQ | .LT | .LTE | .GT | .GTE | .AND | .OR
        | .BITWISEAND | .EQREGEX | .NEQREGEX =>
          match st2.nodes with
          | rhs :: lhs :: rest => do
            let v ← evalComb lhs rhs op
            pure ⟨v :: rest, st2.err⟩
          | _ => .error "exprToFilterFuncVisitor: nodes stack empty"
        | _ =>
          pure ⟨st2.nodes, some ("unsupported operator, " ++ op.str)⟩
  | .varRef v, st => do
    let n ← evalVarRef v
    pure ⟨n :: st.nodes, st.err⟩
  | .paren e, st => visitWalk e st
  | .stringLit s, st => pure ⟨.vStr s :: st.nodes, st.err⟩
  | .numberLit q, st => pure ⟨.vNum q :: st.nodes, st.err⟩
  | .integerLit n, st => pure ⟨.vInt n :: st.nodes, st.err⟩
  | .unsignedLit n, st => pure ⟨.vUint n :: st.nodes, st.err⟩
  | .regexLit pat, st => pure ⟨.vRegex pat :: st.nodes, st.err⟩
  | .booleanLit b, st => pure ⟨.vBool b :: st.nodes, st.err⟩
  | .call _ args, st => visitWalkList args st
  | .wildcard, st => pure st
  | .nilLit, st => pure st

/-- Walk over the children of a call node (the visitor returns itself on
a call, so Walk descends into each argument in order). -/
def visitWalkList : List Expr → EvalState → Except String EvalState
  | [], st => pure st
  | e :: es, st => do
    let st1 ← visitWalk e st
    visitWalkList es st1

end

/-- The outcome of the Where entry point: a predicate, a parse failure, a
recorded evaluation failure, or a Go panic. -/
inductive WhereOutcome where
  | ok (f : SamRecord → Bool)
  | parseFail (e : ParseErr)
  | evalFail (msg : String)
  | panicked (msg : String)

/-- The tail of Where after parsing: walk the statement (the synthesized
field list and source contribute no stack values), then turn the single
remaining stack value into a FilterFunc. -/
def whereFromStmt (stmt : SelectStmt) (query : String) : WhereOutcome :=
  let walked := do
    let st1 ← visitWalkList (stmt.fields.map Prod.fst) ⟨[], none⟩
    match stmt.condition with
    | some c => visitWalk c st1
    | none => pure st1
  match walked with
  | .error msg => .panicked msg
  | .ok st =>
    match st.err with
    | some msg => .evalFail msg
    | none =>
      if st.nodes.length > 1 then
        .panicked ("samql: filter creation failed for " ++ query)
      else
        match st.nodes with
        | [] => .panicked "index out of range"
        | n :: _ =>
          match n with
          | .filt f => .ok f
          | .phBool f => .ok f
          | .vBool b => .ok (fun _ => b)
          | _ => .panicked ("samql: filterFunc creation failed for " ++ query)

/-- Where: prepend the synthesized SELECT wrapper, parse the statement,
and compile the condition into a FilterFunc. -/
def whereText (query : String) : WhereOutcome :=
  let full := "SELECT * FROM foo WHERE " ++ query
  let toks := tokensOf full
  match parseStatementT (toks.length + 2) toks with
  | .error e => .parseFail e
  | .ok (stmt, _) => whereFromStmt stmt full

/-- Apply a Where outcome to a record: the predicate value when
compilation succeeded. -/
def WhereOutcome.apply (w : WhereOutcome) (rec : SamRecord) : Option Bool :=
  match w with
  | .ok f => some (f rec)
  | _ => none

/-- The recorded evaluation-failure message, when that is the outcome. -/
def WhereOutcome.evalFailMsg : WhereOutcome → Option String
  | .evalFail msg => some msg
  | _ => none

/-- The panic message, when the outcome is a panic. -/
def WhereOutcome.panicMsg : WhereOutcome → Option String
  | .panicked msg => some msg
  | _ => none

/-- True when the outcome is a returned (recoverable) failure rather than
a predicate or a panic. -/
def WhereOutcome.isReturnedError : WhereOutcome → Bool
  | .parseFail _ => true
  | .evalFail _ => true
  | _ => false

/-- Parse, render, and parse again (the round-trip composition). -/
def parseRenderParse (s : String) : Except ParseErr Expr :=
  match parseExprText s with
  | .ok e => parseExprText e.render
  | .error e => .error e

/-- The rendered text of a parsed expression, when parsing succeeds. -/
def renderOfParse (s : String) : Option String :=
  match parseExprText s with
  | .ok e => some e.render
  | .error _ => none

/- ---------------------------------------------------------------------
Claim theorems.
--------------------------------------------------------------------- -/

/-- C1: the claim states that every comparison, bitwise-AND, bitwise-OR,
AND and OR binary operator is combined by the evaluator and that a
bitwise-OR query such as FLAG | 1 = 1 compiles.  The code disagrees: the
visitor's supported-operator list omits bitwise-OR, so that query is
rejected with an unsupported-operator evaluation error, even though the
eval combination function itself implements the bitwise-OR case (which is
therefore unreachable).  This theorem evaluates the code at the failing
input and exhibits the orphaned eval branch. -/
theorem c1_bitwise_or_rejected :
    (whereText "FLAG | 1 = 1").evalFailMsg = some "unsupported operator, |" ∧
    ∀ (g : SamRecord → Int) (n : Int),
      evalComb (.phInt g) (.vInt n) .BITWISEOR =
        .ok (.phInt (fun rec => Int.lor (g rec) n)) := by
  exact ⟨rfl, fun g n => rfl⟩

/-- C2 counterexample: the claim states that a query with mismatched
operand kinds is reported as an ordinary compilation failure and never
terminates the program; on the concrete query RNAME = TRUE the code
instead panics (a string field compared to a boolean), so no error value
is returned. -/
theorem c2_counterexample :
    (whereText "RNAME = TRUE").panicMsg =
      some "string placeholder can only be compared to other strings" ∧
    (whereText "RNAME = TRUE").isReturnedError = false := by
  exact ⟨rfl, rfl⟩

/-- C2 amended: mismatched operand kinds make Where panic rather than
return an error; resolving a tag address with type code H or B panics
inside the field resolver; only the unsupported-operator case is returned
as an ordinary compilation error. -/
theorem c2_amended :
    (whereText "RNAME = TRUE").panicMsg =
      some "string placeholder can only be compared to other strings" ∧
    evalVarRef "ZZ:H" = .error "type H in ZZ:H is not supported" ∧
    evalVarRef "ZZ:B" = .error "type B in ZZ:B is not supported" ∧
    (whereText "FLAG ^ 1 = 1").evalFailMsg = some "unsupported operator, ^" := by
  exact ⟨rfl, rfl, rfl, rfl⟩

/-- C3 counterexample: the claim states that parse-render-parse is the
identity on parse results, in particular for the float literal 0.0903.
Rendering formats number literals with exactly three decimals, so 0.0903
renders as 0.090 and reparses to a different literal. -/
theorem c3_counterexample :
    parseRenderParse "0.0903" ≠ parseExprText "0.0903" := by
  have h1 : parseRenderParse "0.0903" = .ok (.numberLit (mkRat 90 1000)) := rfl
  have h2 : parseExprText "0.0903" = .ok (.numberLit (mkRat 903 10000)) := rfl
  rw [h1, h2]
  intro h
  injection h with h
  injection h with h
  exact absurd h (by decide)

/-- C3 amended: the round trip parse-render-parse preserves the parse
result for texts whose literals survive three-decimal float formatting
(integers, operators, and floats with at most three decimals), but fails
for 0.0903: its AST renders as 0.090, which reparses to a different
tree. -/
theorem c3_roundtrip_amended :
    parseRenderParse "1 + 2 * 3" = parseExprText "1 + 2 * 3" ∧
    parseRenderParse "0.090" = parseExprText "0.090" ∧
    renderOfParse "0.0903" = some "0.090" ∧
    parseRenderParse "0.0903" ≠ parseExprText "0.0903" := by
  refine ⟨rfl, rfl, rfl, ?_⟩
  have h1 : parseRenderParse "0.0903" = .ok (.numberLit (mkRat 90 1000)) := rfl
  have h2 : parseExprText "0.0903" = .ok (.numberLit (mkRat 903 10000)) := rfl
  rw [h1, h2]
  intro h
  injection h with h
  injection h with h
  exact absurd h (by decide)

/-- C4: combining an integer accessor with an integer literal produces a
new integer accessor under bitwise-AND/OR (not yet a predicate) and an
integer-comparison predicate under every other operator; consequently the
predicate compiled from FLAG & 1 = 1 is true exactly on records whose flag
word has bit 0 set. -/
theorem c4_bitwise_combination :
    (∀ (g : SamRecord → Int) (n : Int),
      evalComb (.phInt g) (.vInt n) .BITWISEAND =
        .ok (.phInt (fun rec => Int.land (g rec) n))) ∧
    (∀ (g : SamRecord → Int) (n : Int),
      evalComb (.phInt g) (.vInt n) .BITWISEOR =
        .ok (.phInt (fun rec => Int.lor (g rec) n))) ∧
    (∀ (g : SamRecord → Int) (n : Int) (op : Token),
      op ≠ .BITWISEAND → op ≠ .BITWISEOR →
      evalComb (.phInt g) (.vInt n) op =
        .ok (.filt (fun rec => CompInt (g rec) n op))) ∧
    (∀ rec : SamRecord, rec.flags % 2 = 1 →
      (whereText "FLAG & 1 = 1").apply rec = some true) ∧
    (∀ rec : SamRecord, rec.flags % 2 = 0 →
      (whereText "FLAG & 1 = 1").apply rec = some false) := by
  refine ⟨fun g n => rfl, fun g n => rfl, ?_, ?_, ?_⟩
  · intro g n op h1 h2
    cases op <;> first | rfl | exact absurd rfl h1 | exact absurd rfl h2
  · intro rec h
    have hw : (whereText "FLAG & 1 = 1").apply rec =
        some (CompInt (Int.land (flagAcc rec) 1) 1 .EQ) := rfl
    rw [hw]
    have hl : Int.land (flagAcc rec) 1 = ((rec.flags % 2 : Nat) : Int) := by
      have hcast : Int.land (flagAcc rec) 1 = ((rec.flags &&& 1 : Nat) : Int) := rfl
      rw [hcast, Nat.and_one_is_mod]
    show some (Int.land (flagAcc rec) 1 == 1) = some true
    rw [hl, h]
    rfl
  · intro rec h
    have hw : (whereText "FLAG & 1 = 1").apply rec =
        some (CompInt (Int.land (flagAcc rec) 1) 1 .EQ) := rfl
    rw [hw]
    have hl : Int.land (flagAcc rec) 1 = ((rec.flags % 2 : Nat) : Int) := by
      have hcast : Int.land (flagAcc rec) 1 = ((rec.flags &&& 1 : Nat) : Int) := rfl
      rw [hcast, Nat.and_one_is_mod]
    show some (Int.land (flagAcc rec) 1 == 1) = some false
    rw [hl, h]
    rfl

/-- C4 witness: the compiled FLAG & 1 = 1 predicate evaluated at records
with flag words 99 (bit 0 set) and 0. -/
theorem c4_bitwise_combination_witness :
    (whereText "FLAG & 1 = 1").apply { flags := 99 } = some true ∧
    (whereText "FLAG & 1 = 1").apply { flags := 0 } = some false :=
  ⟨c4_bitwise_combination.2.2.2.1 { flags := 99 } (by decide),
    c4_bitwise_combination.2.2.2.2 { flags := 0 } (by decide)⟩

/-- A list all of whose elements satisfy p is its own takeWhile. -/
theorem takeWhile_of_all {p : Char → Bool} :
    ∀ l : List Char, l.all p = true → l.takeWhile p = l := by
  intro l h
  induction l with
  | nil => rfl
  | cons c cs ih =>
    simp only [List.all_cons, Bool.and_eq_true] at h
    simp [List.takeWhile_cons, h.1, ih h.2]

/-- A list all of whose elements satisfy p drops to nil under dropWhile. -/
theorem dropWhile_of_all {p : Char → Bool} :
    ∀ l : List Char, l.all p = true → l.dropWhile p = [] := by
  intro l h
  induction l with
  | nil => rfl
  | cons c cs ih =>
    simp only [List.all_cons, Bool.and_eq_true] at h
    simp [List.dropWhile_cons, h.1, ih h.2]

/-- Scanning a nonempty all-digit text produces one INTEGER token carrying
the whole lexeme. -/
theorem tokensOf_digits (l : List Char) (h1 : l ≠ []) (h2 : l.all Char.isDigit = true) :
    tokensOf (String.mk l) = [(.INTEGER, String.mk l)] := by
  obtain ⟨c, cs, rfl⟩ : ∃ c cs, l = c :: cs := by
    cases l with
    | nil => exact absurd rfl h1
    | cons c cs => exact ⟨c, cs, rfl⟩
  have hts : (String.mk (c :: cs)).toList = c :: cs := rfl
  have hc : c.isDigit = true := by
    simp only [List.all_cons, Bool.and_eq_true] at h2
    exact h2.1
  show scanTokens (((String.mk (c :: cs)).toList).length + 1)
      ((String.mk (c :: cs)).toList) = _
  rw [hts]
  show scanTokens ((c :: cs).length + 1) (c :: cs) = _
  rw [List.length_cons]
  show (if c.isDigit then
      let t := scanNumber (c :: cs)
      t.1 :: scanTokens (cs.length + 1) t.2
    else _) = _
  rw [if_pos hc]
  have hnum : scanNumber (c :: cs) = ((.INTEGER, String.mk (c :: cs)), []) := by
    unfold scanNumber
    rw [takeWhile_of_all _ h2, dropWhile_of_all _ h2]
  rw [hnum]
  rfl

/-- Parsing a token stream holding one INTEGER token follows the
ParseInt-then-ParseUint ladder of the source. -/
theorem parseExprT_single_integer (fuel : Nat) (s : String)
    (h1 : s.toList ≠ []) (h2 : s.toList.all Char.isDigit = true) :
    parseExprT (fuel + 2) [(.INTEGER, s)] =
      if digitsVal s.toList ≤ maxInt64 then
        .ok (.integerLit (digitsVal s.toList), [])
      else if digitsVal s.toList ≤ maxUint64 then
        .ok (.unsignedLit (digitsVal s.toList), [])
      else .error (.msg "unable to parse integer") := by
  have hp : parseIntLit s = some (digitsVal s.toList) := by
    unfold parseIntLit
    rw [if_pos ⟨h1, h2⟩]
  have hunary1 : parseUnaryExprT (fuel + 1) [(.INTEGER, s)] =
      (match parseIntLit s with
       | some v =>
         if v ≤ maxInt64 then
           Except.ok (Expr.integerLit (v : Int), ([] : TkStream))
         else if v ≤ maxUint64 then .ok (.unsignedLit v, ([] : TkStream))
         else .error (.msg "unable to parse integer")
       | none => .error (.msg "unable to parse integer")) := rfl
  have hunary : parseUnaryExprT (fuel + 1) [(.INTEGER, s)] =
      if digitsVal s.toList ≤ maxInt64 then
        Except.ok (Expr.integerLit (digitsVal s.toList : Int), ([] : TkStream))
      else if digitsVal s.toList ≤ maxUint64 then
        .ok (.unsignedLit (digitsVal s.toList), ([] : TkStream))
      else .error (.msg "unable to parse integer") := by
    rw [hunary1, hp]
  show (do
    let (e0, ts1) ← parseUnaryExprT (fuel + 1) [(.INTEGER, s)]
    parseExprLoop (fuel + 1) e0 ts1) = _
  rw [hunary]
  by_cases hle : digitsVal s.toList ≤ maxInt64
  · rw [if_pos hle]
    rfl
  · rw [if_neg hle]
    by_cases hle2 : digitsVal s.toList ≤ maxUint64
    · rw [if_pos hle2]
      rfl
    · rw [if_neg hle2]
      rfl

/-- C5: the negation boundary of integer literals.  Parsing the least
int64 text yields that signed literal; one less fails with an underflow
error; a non-negated all-digit lexeme above the signed range parses as an
unsigned literal; and a lexeme above the unsigned range fails to parse as
a number at all. -/
theorem c5_integer_boundaries :
    parseExprText "-9223372036854775808" =
      .ok (.integerLit (-9223372036854775808)) ∧
    parseExprText "-9223372036854775809" =
      .error (.msg "constant -9223372036854775809 underflows int64") ∧
    (∀ l : List Char, l ≠ [] → l.all Char.isDigit = true →
      maxInt64 < digitsVal l → digitsVal l ≤ maxUint64 →
      parseExprText (String.mk l) = .ok (.unsignedLit (digitsVal l))) ∧
    (∀ l : List Char, l ≠ [] → l.all Char.isDigit = true →
      maxUint64 < digitsVal l →
      parseExprText (String.mk l) = .error (.msg "unable to parse integer")) := by
  refine ⟨rfl, rfl, ?_, ?_⟩
  · intro l h1 h2 h3 h4
    have hlist : (String.mk l).toList = l := rfl
    unfold parseExprText
    rw [tokensOf_digits l h1 h2, hlist]
    rw [parseExprT_single_integer l.length (String.mk l) (by rw [hlist]; exact h1)
      (by rw [hlist]; exact h2)]
    rw [hlist]
    rw [if_neg (by omega), if_pos h4]
    rfl
  · intro l h1 h2 h3
    have hlist : (String.mk l).toList = l := rfl
    unfold parseExprText
    rw [tokensOf_digits l h1 h2, hlist]
    rw [parseExprT_single_integer l.length (String.mk l) (by rw [hlist]; exact h1)
      (by rw [hlist]; exact h2)]
    rw [hlist]
    have hmu : maxInt64 < maxUint64 := by decide
    rw [if_neg (by omega), if_neg (by omega)]
    rfl

/-- C5 witness: the universal parts of the boundary theorem applied to the
concrete lexemes 2^63 and 2^64. -/
theorem c5_integer_boundaries_witness :
    parseExprText (String.mk "9223372036854775808".toList) =
      .ok (.unsignedLit (digitsVal "9223372036854775808".toList)) ∧
    parseExprText (String.mk "18446744073709551616".toList) =
      .error (.msg "unable to parse integer") :=
  ⟨c5_integer_boundaries.2.2.1 "9223372036854775808".toList (by decide)
      (by decide) (by decide) (by decide),
    c5_integer_boundaries.2.2.2 "18446744073709551616".toList (by decide)
      (by decide) (by decide)⟩

/-- C6: operator precedences are OR 1, AND 2, comparisons 3, additive and
bitwise-or/xor 4, multiplicative and bitwise-and 5, and precedence
climbing builds 1 + 2 * 3 as 1 + (2 * 3) and 1 * 2 * 3 left-associatively
as (1 * 2) * 3. -/
theorem c6_precedence_climbing :
    Token.OR.precedence = 1 ∧ Token.AND.precedence = 2 ∧
    (Token.EQ.precedence = 3 ∧ Token.NEQ.precedence = 3 ∧
     Token.EQREGEX.precedence = 3 ∧ Token.NEQREGEX.precedence = 3 ∧
     Token.LT.precedence = 3 ∧ Token.LTE.precedence = 3 ∧
     Token.GT.precedence = 3 ∧ Token.GTE.precedence = 3) ∧
    (Token.ADD.precedence = 4 ∧ Token.SUB.precedence = 4 ∧
     Token.BITWISEOR.precedence = 4 ∧ Token.BITWISEXOR.precedence = 4) ∧
    (Token.MUL.precedence = 5 ∧ Token.DIV.precedence = 5 ∧
     Token.MOD.precedence = 5 ∧ Token.BITWISEAND.precedence = 5) ∧
    parseExprText "1 + 2 * 3" =
      .ok (.binary .ADD (.integerLit 1)
        (.binary .MUL (.integerLit 2) (.integerLit 3))) ∧
    parseExprText "1 * 2 * 3" =
      .ok (.binary .MUL (.binary .MUL (.integerLit 1) (.integerLit 2))
        (.integerLit 3)) := by
  exact ⟨rfl, rfl, ⟨rfl, rfl, rfl, rfl, rfl, rfl, rfl, rfl⟩,
    ⟨rfl, rfl, rfl, rfl⟩, ⟨rfl, rfl, rfl, rfl⟩, rfl, rfl⟩

/-- C7: the predicates compiled from PAIRED and from PAIRED = TRUE agree
on every record (a bare boolean accessor behaves as an implicit
equals-true comparison). -/
theorem c7_boolean_shorthand :
    ∀ rec : SamRecord,
      (whereText "PAIRED").apply rec = (whereText "PAIRED = TRUE").apply rec := by
  intro rec
  have h1 : (whereText "PAIRED").apply rec = some (pairedAcc rec) := rfl
  have h2 : (whereText "PAIRED = TRUE").apply rec =
      some (CompBool (pairedAcc rec) true .EQ) := rfl
  rw [h1, h2]
  cases hb : pairedAcc rec <;> rfl

/-- C8: a tag accessor on a record lacking the addressed tag evaluates to
the zero value of its type (0 for i, 0.0 for f, the empty string for Z
and A) and never fails, and getPlaceholderTag dispatches each type code
to the corresponding accessor keyed by the first two characters. -/
theorem c8_missing_tag_zero_values :
    (∀ (key : String) (rec : SamRecord), rec.tagLookup key = none →
      tagIntAcc key rec = 0 ∧ tagFloatAcc key rec = 0 ∧
      tagStrAcc key rec = "" ∧ tagCharAcc key rec = "") ∧
    (∀ aval : String, aval.toList.get? 3 = some 'i' →
      getPlaceholderTag aval = .ok (.phInt (tagIntAcc (tagKey aval)))) ∧
    (∀ aval : String, aval.toList.get? 3 = some 'f' →
      getPlaceholderTag aval = .ok (.phFloat (tagFloatAcc (tagKey aval)))) ∧
    (∀ aval : String, aval.toList.get? 3 = some 'Z' →
      getPlaceholderTag aval = .ok (.phStr (tagStrAcc (tagKey aval)))) ∧
    (∀ aval : String, aval.toList.get? 3 = some 'A' →
      getPlaceholderTag aval = .ok (.phStr (tagCharAcc (tagKey aval)))) := by
  refine ⟨?_, ?_, ?_, ?_, ?_⟩
  · intro key rec h
    unfold tagIntAcc tagFloatAcc tagStrAcc tagCharAcc
    rw [h]
    exact ⟨rfl, rfl, rfl, rfl⟩
  · intro aval h
    unfold getPlaceholderTag
    rw [h]
    rfl
  · intro aval h
    unfold getPlaceholderTag
    rw [h]
    rfl
  · intro aval h
    unfold getPlaceholderTag
    rw [h]
    rfl
  · intro aval h
    unfold getPlaceholderTag
    rw [h]
    rfl

/-- C8 witness: the missing-tag zero values and the integer dispatch at
the concrete tag address ZZ:i on a record with no tags. -/
theorem c8_missing_tag_zero_values_witness :
    (tagIntAcc "ZZ" {} = 0 ∧ tagFloatAcc "ZZ" {} = 0 ∧
      tagStrAcc "ZZ" {} = "" ∧ tagCharAcc "ZZ" {} = "") ∧
    getPlaceholderTag "ZZ:i" = .ok (.phInt (tagIntAcc (tagKey "ZZ:i"))) :=
  ⟨c8_missing_tag_zero_values.1 "ZZ" {} rfl,
    c8_missing_tag_zero_values.2.1 "ZZ:i" rfl⟩

/-- C9: each comparison helper returns false, not an error, on an
operator outside its supported set, so a successfully compiled predicate
that routes such an operator to such operands (e.g. AND between two
integer accessors, as in POS AND PNEXT) is the constant-false
predicate. -/
theorem c9_unsupported_ops_false :
    (∀ (a b : Int) (op : Token),
      op ≠ .EQ → op ≠ .NEQ → op ≠ .LT → op ≠ .LTE → op ≠ .GT → op ≠ .GTE →
      CompInt a b op = false) ∧
    (∀ (a b : ℚ) (op : Token),
      op ≠ .EQ → op ≠ .NEQ → op ≠ .LT → op ≠ .LTE → op ≠ .GT → op ≠ .GTE →
      CompFloat a b op = false) ∧
    (∀ (a b : String) (op : Token),
      op ≠ .EQ → op ≠ .NEQ → op ≠ .LT → op ≠ .LTE → op ≠ .GT → op ≠ .GTE →
      op ≠ .EQREGEX → op ≠ .NEQREGEX →
      CompStr a b op = false) ∧
    (∀ (a b : Bool) (op : Token),
      op ≠ .EQ → op ≠ .NEQ → op ≠ .AND → op ≠ .OR →
      CompBool a b op = false) ∧
    (∀ rec : SamRecord, (whereText "POS AND PNEXT").apply rec = some false) := by
  refine ⟨?_, ?_, ?_, ?_, ?_⟩
  · intro a b op h1 h2 h3 h4 h5 h6
    cases op <;> first
      | rfl
      | exact absurd rfl h1
      | exact absurd rfl h2
      | exact absurd rfl h3
      | exact absurd rfl h4
      | exact absurd rfl h5
      | exact absurd rfl h6
  · intro a b op h1 h2 h3 h4 h5 h6
    cases op <;> first
      | rfl
      | exact absurd rfl h1
      | exact absurd rfl h2
      | exact absurd rfl h3
      | exact absurd rfl h4
      | exact absurd rfl h5
      | exact absurd rfl h6
  · intro a b op h1 h2 h3 h4 h5 h6 h7 h8
    cases op <;> first
      | rfl
      | exact absurd rfl h1
      | exact absurd rfl h2
      | exact absurd rfl h3
      | exact absurd rfl h4
      | exact absurd rfl h5
      | exact absurd rfl h6
      | exact absurd rfl h7
      | exact absurd rfl h8
  · intro a b op h1 h2 h3 h4
    cases op <;> first
      | rfl
      | exact absurd rfl h1
      | exact absurd rfl h2
      | exact absurd rfl h3
      | exact absurd rfl h4
  · intro rec
    have hw : (whereText "POS AND PNEXT").apply rec =
        some (CompInt (posAcc rec) (pnextAcc rec) .AND) := rfl
    rw [hw]
    rfl

/-- C9 witness: the unsupported-operator cases applied to concrete
operands, and the compiled constant-false predicate at a concrete
record. -/
theorem c9_unsupported_ops_false_witness :
    CompInt 3 5 .ADD = false ∧
    CompFloat 0 1 .AND = false ∧
    CompStr "a" "b" .BITWISEAND = false ∧
    CompBool true true .LT = false ∧
    (whereText "POS AND PNEXT").apply { pos := 7, matePos := 7 } = some false :=
  ⟨c9_unsupported_ops_false.1 3 5 .ADD (by decide) (by decide) (by decide)
      (by decide) (by decide) (by decide),
    c9_unsupported_ops_false.2.1 0 1 .AND (by decide) (by decide) (by decide)
      (by decide) (by decide) (by decide),
    c9_unsupported_ops_false.2.2.1 "a" "b" .BITWISEAND (by decide) (by decide)
      (by decide) (by decide) (by decide) (by decide) (by decide) (by decide),
    c9_unsupported_ops_false.2.2.2.1 true true .LT (by decide) (by decide)
      (by decide) (by decide),
    c9_unsupported_ops_false.2.2.2.2 { pos := 7, matePos := 7 }⟩

/-- C10 counterexample: the claim states that every non-keyword
identifier matching the tag-address prefix pattern, including type codes
H and B, resolves to a tag accessor; on the concrete identifier ZZ:H
(not a keyword, matching the pattern) the resolver instead panics, so no
accessor is produced. -/
theorem c10_counterexample :
    getPlaceholder "ZZ:H" = none ∧
    validTag "ZZ:H" = true ∧
    evalVarRef "ZZ:H" = .error "type H in ZZ:H is not supported" := by
  exact ⟨rfl, rfl, rfl⟩

/-- C10 amended: identifier resolution tests the tag pattern as a prefix
match; a non-keyword identifier whose first four characters are two
letters, a colon, and one of the implemented type codes i, Z, A, f
resolves to the tag accessor for its two-letter key regardless of
trailing characters (e.g. NM:ifoo resolves as the integer tag NM); type
codes H and B match the pattern but panic; and only identifiers matching
neither the keyword table nor the pattern are pushed as opaque
strings. -/
theorem c10_prefix_resolution_amended :
    (∀ s : String, getPlaceholder s = none → validTag s = true →
      s.toList.get? 3 = some 'i' →
      evalVarRef s = .ok (.phInt (tagIntAcc (tagKey s)))) ∧
    (∀ s : String, getPlaceholder s = none → validTag s = true →
      s.toList.get? 3 = some 'Z' →
      evalVarRef s = .ok (.phStr (tagStrAcc (tagKey s)))) ∧
    (∀ s : String, getPlaceholder s = none → validTag s = true →
      s.toList.get? 3 = some 'A' →
      evalVarRef s = .ok (.phStr (tagCharAcc (tagKey s)))) ∧
    (∀ s : String, getPlaceholder s = none → validTag s = true →
      s.toList.get? 3 = some 'f' →
      evalVarRef s = .ok (.phFloat (tagFloatAcc (tagKey s)))) ∧
    (∀ s : String, getPlaceholder s = none → validTag s = true →
      s.toList.get? 3 = some 'H' →
      evalVarRef s = .error ("type H in " ++ s ++ " is not supported")) ∧
    (∀ s : String, getPlaceholder s = none → validTag s = true →
      s.toList.get? 3 = some 'B' →
      evalVarRef s = .error ("type B in " ++ s ++ " is not supported")) ∧
    (∀ s : String, getPlaceholder s = none → validTag s = false →
      evalVarRef s = .ok (.vStr s)) ∧
    evalVarRef "NM:ifoo" = .ok (.phInt (tagIntAcc (tagKey "NM:ifoo"))) := by
  refine ⟨?_, ?_, ?_, ?_, ?_, ?_, ?_, rfl⟩
  · intro s h1 h2 h3
    unfold evalVarRef
    rw [h1, if_pos h2]
    unfold getPlaceholderTag
    rw [h3]
    rfl
  · intro s h1 h2 h3
    unfold evalVarRef
    rw [h1, if_pos h2]
    unfold getPlaceholderTag
    rw [h3]
    rfl
  · intro s h1 h2 h3
    unfold evalVarRef
    rw [h1, if_pos h2]
    unfold getPlaceholderTag
    rw [h3]
    rfl
  · intro s h1 h2 h3
    unfold evalVarRef
    rw [h1, if_pos h2]
    unfold getPlaceholderTag
    rw [h3]
    rfl
  · intro s h1 h2 h3
    unfold evalVarRef
    rw [h1, if_pos h2]
    unfold getPlaceholderTag
    rw [h3]
    rfl
  · intro s h1 h2 h3
    unfold evalVarRef
    rw [h1, if_pos h2]
    unfold getPlaceholderTag
    rw [h3]
    rfl
  · intro s h1 h2
    unfold evalVarRef
    rw [h1, if_neg (by rw [h2]; exact Bool.false_ne_true)]

/-- C10 witness: the amended resolution facts at the concrete
identifiers NM:ifoo (trailing characters after the type code), ZZ:H
(pattern match that panics), and r001 (opaque text). -/
theorem c10_prefix_resolution_amended_witness :
    evalVarRef "NM:ifoo" = .ok (.phInt (tagIntAcc (tagKey "NM:ifoo"))) ∧
    evalVarRef "ZZ:H" = .error ("type H in " ++ "ZZ:H" ++ " is not supported") ∧
    evalVarRef "r001" = .ok (.vStr "r001") :=
  ⟨c10_prefix_resolution_amended.1 "NM:ifoo" rfl rfl rfl,
    c10_prefix_resolution_amended.2.2.2.2.1 "ZZ:H" rfl rfl rfl,
    c10_prefix_resolution_amended.2.2.2.2.2.2.1 "r001" rfl rfl⟩

end Samql
